import Mathlib

/-!
Verification of the workspace reconciliation engine of the rosinstall
repository (src/rosinstall/config_elements.py).

The embedding is shallow: the VCS driver bound to one local path
(vcstools VcsClient) is modelled as a record of the answers its query
operations give during one install run, the filesystem is abstracted to
whether the element path exists, and every filesystem-mutating driver or
shutil call is recorded in a trace of actions.  Exceptions
(MultiProjectException) become an Except value carrying the message the
Python code formats.
-/

/-- Python rstrip with a slash argument: drop every trailing slash. -/
def rstripSlashes (s : String) : String :=
  String.mk ((s.data.reverse.dropWhile (fun c => c == '/')).reverse)

/-- os.path.basename for POSIX paths: the part after the last slash. -/
def osPathBasename (p : String) : String := (p.splitOn "/").getLastD ""

/-- os.path.join for POSIX paths, two arguments. -/
def osPathJoin (a b : String) : String :=
  if b.startsWith "/" then b
  else if a = "" then b
  else if a.endsWith "/" then a ++ b
  else a ++ "/" ++ b

/-- Decimal digits padded on the left with zeros to width 2 (strftime %m, %d,
    %H, %M, %S). -/
def pad2 (n : Nat) : String := if n < 10 then "0" ++ toString n else toString n

/-- Decimal digits padded on the left with zeros to width 4 (strftime %Y). -/
def pad4 (n : Nat) : String :=
  if n < 10 then "000" ++ toString n
  else if n < 100 then "00" ++ toString n
  else if n < 1000 then "0" ++ toString n
  else toString n

/-- A wall-clock reading, as datetime.datetime.now() supplies it. -/
structure Datetime where
  year : Nat
  month : Nat
  day : Nat
  hour : Nat
  minute : Nat
  second : Nat
deriving DecidableEq, Repr

/-- strftime with the format the backup code uses:
    %Y-%m-%d-%H-%M-%S, each field zero-padded. -/
def Datetime.strftimeYmdHMS (t : Datetime) : String :=
  pad4 t.year ++ "-" ++ pad2 t.month ++ "-" ++ pad2 t.day ++ "-" ++
  pad2 t.hour ++ "-" ++ pad2 t.minute ++ "-" ++ pad2 t.second

/-- The answers of one vcstools VcsClient bound to the element path during
    one run: detect_presence(), get_url(), whether checkout(uri, version)
    and update(version) report success, get_vcs_type_name(), and
    get_version (none stands for calling it with no argument, some spec
    for get_version(spec)).  A get_url of "" models the Python falsy
    empty/absent URL. -/
structure VcsClient where
  detect_presence : Bool
  get_url : String
  checkout_ok : Bool
  update_ok : Bool
  get_vcs_type_name : String
  get_version : Option String → String

/-- The state of a VCSConfigElement after construction: path, local_name,
    the stored uri (trailing slashes stripped), the optional version pin
    (the constructor default is the empty string, which also stands for
    the Python None the code guards against), and the owned driver. -/
structure VCSConfigElement where
  path : String
  local_name : String
  uri : String
  version : String
  vcsc : VcsClient

/-- VCSConfigElement.__init__ (config_elements.py lines 76-94): reject a
    missing path, a missing uri, or a missing driver instance with the
    messages the code formats, in that order; otherwise store the uri with
    trailing slashes stripped. -/
def mkVCSConfigElement (path : Option String) (vcs_client : Option VcsClient)
    (local_name : String) (uri : Option String) (version : String) :
    Except String VCSConfigElement :=
  match path with
  | none => Except.error "Invalid empty path"
  | some p =>
    match uri with
    | none =>
      Except.error ("Invalid scm entry having no uri attribute for path " ++ p)
    | some u =>
      match vcs_client with
      | none =>
        Except.error
          "Vcs Config element can only be constructed by providing a VCS client instance"
      | some c =>
        Except.ok
          { path := p, local_name := local_name, uri := rstripSlashes u,
            version := version, vcsc := c }

/-- One filesystem-mutating call install can make: vcsc.checkout(uri,
    version), vcsc.update(version), shutil.rmtree(path), or the
    shutil.move(path, dest) of ConfigElement.backup. -/
inductive FsAction where
  | checkout (uri version : String)
  | update (version : String)
  | rmtree (path : String)
  | backupMove (src dest : String)
deriving DecidableEq, Repr

/-- What one install call did: the exception or normal return, the
    filesystem-mutating calls in order, and whether the element path
    exists afterwards. -/
structure InstallOutcome where
  result : Except String Unit
  trace : List FsAction
  pathExistsAfter : Bool

/-- ConfigElement.backup (lines 39-44): with a falsy backup_path (absent
    or empty) raise; otherwise move the path to
    backup_path/basename(path)_timestamp and report that destination. -/
def backupStep (path : String) (backup_path : Option String) (now : Datetime) :
    Except String String :=
  match backup_path with
  | none => Except.error ("Cannot install " ++ path ++ ".  backup disabled.")
  | some bp =>
    if bp = "" then Except.error ("Cannot install " ++ path ++ ".  backup disabled.")
    else Except.ok (osPathJoin bp (osPathBasename path ++ "_" ++ now.strftimeYmdHMS))

/-- Lines 113-117 of install: the conflict error_message for an existing
    path.  none means a clean match (presence detected, URL reported and
    equal to the stored uri once its trailing slashes are stripped). -/
def conflictMessage (e : VCSConfigElement) : Option String :=
  if e.vcsc.detect_presence = false then
    some ("Failed to detect " ++ e.vcsc.get_vcs_type_name ++ " presence at " ++
      e.path ++ ".")
  else if e.vcsc.get_url = "" ∨ rstripSlashes e.vcsc.get_url ≠ e.uri then
    some ("url " ++ e.vcsc.get_url ++ " does not match " ++ e.uri ++ " requested.")
  else none

/-- The message of a failed checkout (lines 110 and 149). -/
def checkoutFailMsg (e : VCSConfigElement) : String :=
  "Checkout of " ++ e.uri ++ " version " ++ e.version ++ " into " ++ e.path ++
    " failed."

/-- Lines 144-149 of install: after conflict resolution, re-check the
    path (exNow is what vcsc.path_exists() reports there; done are the
    mutations made so far).  If the path still exists raise the bug
    message without checking out; otherwise check out, raising on
    failure. -/
def postResolution (e : VCSConfigElement) (done : List FsAction) (exNow : Bool) :
    InstallOutcome :=
  if exNow then
    { result := Except.error ("Bug: directory " ++ e.path ++
        " should not exist anymore"),
      trace := done, pathExistsAfter := exNow }
  else if e.vcsc.checkout_ok = false then
    { result := Except.error (checkoutFailMsg e),
      trace := done ++ [FsAction.checkout e.uri e.version],
      pathExistsAfter := false }
  else
    { result := Except.ok (),
      trace := done ++ [FsAction.checkout e.uri e.version],
      pathExistsAfter := true }

/-- VCSConfigElement.install (lines 99-149).  fs is whether the element
    path exists on entry (what vcsc.path_exists() reports at line 108);
    removedExists is what vcsc.path_exists() reports at line 145 right
    after a backup move or an rmtree removed the path (false whenever the
    removal behaved normally); now is the wall clock ConfigElement.backup
    reads; promptMode and promptBackupPath are the answers of the
    interactive resolver (prompt_del_abort_retry and get_backup_path,
    which live outside this module) when arg_mode is prompt. -/
def VCSConfigElement.install (e : VCSConfigElement) (fs : Bool)
    (backup_path : Option String) (arg_mode : String) (robust : Bool)
    (now : Datetime) (promptMode : String) (promptBackupPath : Option String)
    (removedExists : Bool) : InstallOutcome :=
  if fs = false then
    if e.vcsc.checkout_ok = false then
      { result := Except.error (checkoutFailMsg e),
        trace := [FsAction.checkout e.uri e.version], pathExistsAfter := false }
    else
      { result := Except.ok (),
        trace := [FsAction.checkout e.uri e.version], pathExistsAfter := true }
  else
    match conflictMessage e with
    | none =>
      if e.vcsc.update_ok = false then
        { result := Except.error ("Update Failed of " ++ e.path),
          trace := [FsAction.update e.version], pathExistsAfter := fs }
      else
        { result := Except.ok (),
          trace := [FsAction.update e.version], pathExistsAfter := fs }
    | some msg =>
      if robust then
        { result := Except.error msg, trace := [], pathExistsAfter := fs }
      else
        let mode := if arg_mode = "prompt" then promptMode else arg_mode
        let bpath := if arg_mode = "prompt" ∧ promptMode = "backup"
          then promptBackupPath else backup_path
        if mode = "abort" then
          { result := Except.error msg, trace := [], pathExistsAfter := fs }
        else if mode = "backup" then
          match backupStep e.path bpath now with
          | Except.error bmsg =>
            { result := Except.error bmsg, trace := [], pathExistsAfter := fs }
          | Except.ok dest =>
            postResolution e [FsAction.backupMove e.path dest] removedExists
        else if mode = "delete" then
          postResolution e [FsAction.rmtree e.path] removedExists
        else if mode = "skip" then
          { result := Except.ok (), trace := [], pathExistsAfter := fs }
        else
          postResolution e [] fs

/-- The versioned entry descriptor get_versioned_yaml builds (the keys of
    the inner dict; the outer key is the backend name). -/
structure VersionedYamlEntry where
  vcs_type_name : String
  local_name : String
  uri : String
  version : String
  revision : String

/-- VCSConfigElement.get_versioned_yaml (lines 158-164): version is the
    current revision the driver reports (get_version with no argument),
    revision is the empty string unless the pin is present and nonblank
    (Python strip, played here by String.trim), in which
    case it is get_version(version). -/
def VCSConfigElement.get_versioned_yaml (e : VCSConfigElement) :
    VersionedYamlEntry :=
  { vcs_type_name := e.vcsc.get_vcs_type_name, local_name := e.local_name,
    uri := e.uri, version := e.vcsc.get_version none,
    revision := if e.version.trim = "" then ""
      else e.vcsc.get_version (some e.version) }

/-! Concrete sample drivers and elements used by witnesses and
    counterexamples. -/

/-- A driver whose reported URL differs from the stored uri only by a
    trailing slash, everything else clean. -/
def sampleClient : VcsClient :=
  { detect_presence := true, get_url := "http://x/repo/", checkout_ok := true,
    update_ok := true, get_vcs_type_name := "git",
    get_version := fun o => match o with
      | none => "headrev"
      | some s => "resolved-" ++ s }

/-- An element as the constructor stores it for uri http://x/repo/. -/
def sampleElem : VCSConfigElement :=
  { path := "/ws/foo", local_name := "foo", uri := "http://x/repo",
    version := "v1.0", vcsc := sampleClient }

/-- A driver reporting a genuinely different URL: a URL-mismatch conflict. -/
def mismatchClient : VcsClient :=
  { detect_presence := true, get_url := "http://y/other", checkout_ok := true,
    update_ok := true, get_vcs_type_name := "git",
    get_version := fun _ => "r" }

/-- An element in URL-mismatch conflict. -/
def mismatchElem : VCSConfigElement :=
  { path := "/ws/foo", local_name := "foo", uri := "http://x/repo",
    version := "", vcsc := mismatchClient }

/-- A fixed wall-clock reading for the concrete runs. -/
def sampleTime : Datetime :=
  { year := 2010, month := 3, day := 5, hour := 4, minute := 7, second := 9 }

/-! Helper lemmas shared by the claim theorems. -/

/-- Any of the three conflict conditions of lines 113-117 makes the
    error_message some message. -/
theorem conflictMessage_eq_some (e : VCSConfigElement)
    (h : e.vcsc.detect_presence = false ∨ e.vcsc.get_url = "" ∨
      rstripSlashes e.vcsc.get_url ≠ e.uri) :
    ∃ m, conflictMessage e = some m := by
  unfold conflictMessage
  by_cases hp : e.vcsc.detect_presence = false
  · rw [if_pos hp]; exact ⟨_, rfl⟩
  · rw [if_neg hp]
    have hor : e.vcsc.get_url = "" ∨ rstripSlashes e.vcsc.get_url ≠ e.uri := by
      rcases h with h | h | h
      · exact absurd h hp
      · exact Or.inl h
      · exact Or.inr h
    rw [if_pos hor]; exact ⟨_, rfl⟩

/-- A detected presence together with a nonempty reported URL matching the
    stored uri leaves the error_message unset. -/
theorem conflictMessage_eq_none (e : VCSConfigElement)
    (hp : e.vcsc.detect_presence = true)
    (hu : e.vcsc.get_url ≠ "")
    (hmatch : rstripSlashes e.vcsc.get_url = e.uri) :
    conflictMessage e = none := by
  unfold conflictMessage
  rw [if_neg (by simp [hp]), if_neg (by rintro (h | h) <;> [exact hu h; exact h hmatch])]

/-- Robust install on a conflicting existing path: the error is raised with
    no action. -/
theorem install_conflict_robust (e : VCSConfigElement) (bp : Option String)
    (am : String) (t : Datetime) (pm : String) (pbp : Option String)
    (rex : Bool) (m : String) (hm : conflictMessage e = some m) :
    e.install true bp am true t pm pbp rex =
      { result := Except.error m, trace := [], pathExistsAfter := true } := by
  unfold VCSConfigElement.install
  rw [hm]
  rfl

/-- Scripted abort on a conflicting existing path. -/
theorem install_conflict_abort (e : VCSConfigElement) (bp : Option String)
    (t : Datetime) (pm : String) (pbp : Option String) (rex : Bool)
    (m : String) (hm : conflictMessage e = some m) :
    e.install true bp "abort" false t pm pbp rex =
      { result := Except.error m, trace := [], pathExistsAfter := true } := by
  unfold VCSConfigElement.install
  rw [hm]
  rfl

/-- Scripted skip on a conflicting existing path. -/
theorem install_conflict_skip (e : VCSConfigElement) (bp : Option String)
    (t : Datetime) (pm : String) (pbp : Option String) (rex : Bool)
    (m : String) (hm : conflictMessage e = some m) :
    e.install true bp "skip" false t pm pbp rex =
      { result := Except.ok (), trace := [], pathExistsAfter := true } := by
  unfold VCSConfigElement.install
  rw [hm]
  rfl

/-- Scripted delete on a conflicting existing path hands over to the
    post-resolution re-check with the rmtree recorded. -/
theorem install_conflict_delete (e : VCSConfigElement) (bp : Option String)
    (t : Datetime) (pm : String) (pbp : Option String) (rex : Bool)
    (m : String) (hm : conflictMessage e = some m) :
    e.install true bp "delete" false t pm pbp rex =
      postResolution e [FsAction.rmtree e.path] rex := by
  unfold VCSConfigElement.install
  rw [hm]
  rfl

/-- Scripted backup on a conflicting existing path, when
    ConfigElement.backup raises: its error propagates with no action. -/
theorem install_conflict_backup_err (e : VCSConfigElement) (bp : Option String)
    (t : Datetime) (pm : String) (pbp : Option String) (rex : Bool)
    (m s : String) (hm : conflictMessage e = some m)
    (hb : backupStep e.path bp t = Except.error s) :
    e.install true bp "backup" false t pm pbp rex =
      { result := Except.error s, trace := [], pathExistsAfter := true } := by
  unfold VCSConfigElement.install
  rw [hm]
  show (match backupStep e.path bp t with
    | Except.error bmsg =>
      ({ result := Except.error bmsg, trace := [],
         pathExistsAfter := true } : InstallOutcome)
    | Except.ok dest =>
      postResolution e [FsAction.backupMove e.path dest] rex) = _
  rw [hb]

/-- Scripted backup on a conflicting existing path, when
    ConfigElement.backup succeeds: the move is recorded and the
    post-resolution re-check runs. -/
theorem install_conflict_backup_ok (e : VCSConfigElement) (bp : Option String)
    (t : Datetime) (pm : String) (pbp : Option String) (rex : Bool)
    (m dest : String) (hm : conflictMessage e = some m)
    (hb : backupStep e.path bp t = Except.ok dest) :
    e.install true bp "backup" false t pm pbp rex =
      postResolution e [FsAction.backupMove e.path dest] rex := by
  unfold VCSConfigElement.install
  rw [hm]
  show (match backupStep e.path bp t with
    | Except.error bmsg =>
      ({ result := Except.error bmsg, trace := [],
         pathExistsAfter := true } : InstallOutcome)
    | Except.ok dest => postResolution e [FsAction.backupMove e.path dest] rex) = _
  rw [hb]

/-- A scripted mode that is none of the five recognized words falls
    through the dispatch to the re-check with the path untouched. -/
theorem install_conflict_unknown (e : VCSConfigElement) (bp : Option String)
    (am : String) (t : Datetime) (pm : String) (pbp : Option String)
    (rex : Bool) (m : String) (hm : conflictMessage e = some m)
    (h1 : am ≠ "abort") (h2 : am ≠ "backup") (h3 : am ≠ "delete")
    (h4 : am ≠ "skip") (h5 : am ≠ "prompt") :
    e.install true bp am false t pm pbp rex = postResolution e [] true := by
  unfold VCSConfigElement.install
  rw [hm]
  simp only [h1, h2, h3, h4, h5, ite_false, if_neg, reduceIte]
  rfl

/-! The claim theorems. -/

/-- Claim C1: for an existing path with robust true and a conflict
    detected (presence not detected, or reported URL empty or differing
    from the stored uri after trailing-slash normalization), install
    raises an error and performs no filesystem-mutating operation: the
    action trace is empty and the path state is untouched. -/
theorem install_robust_conflict_no_fs_change (e : VCSConfigElement)
    (bp : Option String) (am : String) (t : Datetime) (pm : String)
    (pbp : Option String) (rex : Bool)
    (hconf : e.vcsc.detect_presence = false ∨ e.vcsc.get_url = "" ∨
      rstripSlashes e.vcsc.get_url ≠ e.uri) :
    (e.install true bp am true t pm pbp rex).trace = [] ∧
    (∃ m, (e.install true bp am true t pm pbp rex).result = Except.error m) ∧
    (e.install true bp am true t pm pbp rex).pathExistsAfter = true := by
  obtain ⟨m, hm⟩ := conflictMessage_eq_some e hconf
  rw [install_conflict_robust e bp am t pm pbp rex m hm]
  exact ⟨rfl, ⟨m, rfl⟩, rfl⟩

/-- Claim C1 witness: a concrete URL-mismatch element under robust
    install. -/
theorem install_robust_conflict_no_fs_change_wit :
    (mismatchElem.install true none "abort" true sampleTime "" none
      false).trace = [] ∧
    (∃ m, (mismatchElem.install true none "abort" true sampleTime "" none
      false).result = Except.error m) ∧
    (mismatchElem.install true none "abort" true sampleTime "" none
      false).pathExistsAfter = true :=
  install_robust_conflict_no_fs_change mismatchElem none "abort" sampleTime
    "" none false (Or.inr (Or.inr (by decide)))

/-- Claim C2: for a path absent on disk, install performs exactly one
    checkout(uri, version) call and nothing else; a failing checkout
    raises the checkout-failed error, a succeeding one returns
    normally. -/
theorem install_absent_path_single_checkout (e : VCSConfigElement)
    (bp : Option String) (am : String) (rb : Bool) (t : Datetime)
    (pm : String) (pbp : Option String) (rex : Bool) :
    (e.install false bp am rb t pm pbp rex).trace =
      [FsAction.checkout e.uri e.version] ∧
    (e.vcsc.checkout_ok = false →
      (e.install false bp am rb t pm pbp rex).result =
        Except.error (checkoutFailMsg e)) ∧
    (e.vcsc.checkout_ok = true →
      (e.install false bp am rb t pm pbp rex).result = Except.ok ()) := by
  rcases Bool.eq_false_or_eq_true e.vcsc.checkout_ok with h | h <;>
    simp [VCSConfigElement.install, h]

/-- An entry whose stored uri is empty while its driver detects presence
    but reports no URL: after stripping, the reported URL equals the
    stored uri, yet line 116 treats the empty URL as a conflict. -/
def emptyUrlClient : VcsClient :=
  { detect_presence := true, get_url := "", checkout_ok := true,
    update_ok := true, get_vcs_type_name := "git",
    get_version := fun _ => "r" }

/-- The element built on emptyUrlClient with an empty stored uri. -/
def emptyUrlElem : VCSConfigElement :=
  { path := "/ws/foo", local_name := "foo", uri := "", version := "",
    vcsc := emptyUrlClient }

/-- Claim C3 counterexample: an element with detected presence whose
    driver-reported URL ("") equals the stored uri ("") after stripping
    trailing slashes, on which install performs no update call at all:
    the empty reported URL is a conflict, so scripted abort raises the
    mismatch message instead. -/
theorem install_clean_match_single_update_cex :
    emptyUrlElem.vcsc.detect_presence = true ∧
    rstripSlashes emptyUrlElem.vcsc.get_url = emptyUrlElem.uri ∧
    (emptyUrlElem.install true none "abort" false sampleTime "" none
      false).trace ≠ [FsAction.update emptyUrlElem.version] ∧
    (emptyUrlElem.install true none "abort" false sampleTime "" none
      false).trace = [] ∧
    (emptyUrlElem.install true none "abort" false sampleTime "" none
      false).result = Except.error ("url  does not match  requested.") := by
  refine ⟨rfl, by decide, by decide, rfl, rfl⟩

/-- Claim C3 as amended: for an existing path with presence detected and
    a nonempty driver-reported URL matching the stored uri after
    stripping trailing slashes, install performs exactly one
    update(version) call, raising the update-failed error when the driver
    reports failure and returning normally otherwise. -/
theorem install_clean_match_single_update (e : VCSConfigElement)
    (bp : Option String) (am : String) (rb : Bool) (t : Datetime)
    (pm : String) (pbp : Option String) (rex : Bool)
    (hp : e.vcsc.detect_presence = true)
    (hu : e.vcsc.get_url ≠ "")
    (hmatch : rstripSlashes e.vcsc.get_url = e.uri) :
    (e.install true bp am rb t pm pbp rex).trace =
      [FsAction.update e.version] ∧
    (e.vcsc.update_ok = false →
      (e.install true bp am rb t pm pbp rex).result =
        Except.error ("Update Failed of " ++ e.path)) ∧
    (e.vcsc.update_ok = true →
      (e.install true bp am rb t pm pbp rex).result = Except.ok ()) := by
  have hnone := conflictMessage_eq_none e hp hu hmatch
  rcases Bool.eq_false_or_eq_true e.vcsc.update_ok with h | h <;>
    simp [VCSConfigElement.install, hnone, h]

/-- Claim C3 witness: the sample element with a clean match. -/
theorem install_clean_match_single_update_wit :
    (sampleElem.install true none "abort" false sampleTime "" none
      false).trace = [FsAction.update sampleElem.version] ∧
    (sampleElem.vcsc.update_ok = false →
      (sampleElem.install true none "abort" false sampleTime "" none
        false).result = Except.error ("Update Failed of " ++ sampleElem.path)) ∧
    (sampleElem.vcsc.update_ok = true →
      (sampleElem.install true none "abort" false sampleTime "" none
        false).result = Except.ok ()) :=
  install_clean_match_single_update sampleElem none "abort" false sampleTime
    "" none false (by decide) (by decide) (by decide)

/-- Claim C4: the constructor stores every uri with its trailing slashes
    stripped (stated for all arguments and at the concrete uri of the
    claim), and install strips the driver-reported URL the same way
    before comparing, so the sample element whose driver reports
    http://x/repo/ against the stored http://x/repo sees no conflict and
    goes on to its update. -/
theorem uri_trailing_slash_normalization :
    (∀ (p ln v u : String) (c : VcsClient),
      mkVCSConfigElement (some p) (some c) ln (some u) v =
        Except.ok ⟨p, ln, rstripSlashes u, v, c⟩) ∧
    rstripSlashes "http://x/repo/" = "http://x/repo" ∧
    sampleElem.vcsc.get_url = "http://x/repo/" ∧
    sampleElem.uri = "http://x/repo" ∧
    conflictMessage sampleElem = none ∧
    (sampleElem.install true none "abort" false sampleTime "" none
      false).trace = [FsAction.update sampleElem.version] := by
  refine ⟨fun p ln v u c => rfl, by decide, rfl, rfl, by decide, by decide⟩

/-- Claim C5: constructing a Checkout element fails exactly when the
    path, the uri, or the driver instance is missing; with all three
    present construction succeeds. -/
theorem mkVCSConfigElement_validation (p : Option String)
    (c : Option VcsClient) (ln : String) (u : Option String) (v : String) :
    ((∃ el, mkVCSConfigElement p c ln u v = Except.ok el) ↔
      (p ≠ none ∧ u ≠ none ∧ c ≠ none)) ∧
    (p = none ∨ u = none ∨ c = none →
      ∃ msg, mkVCSConfigElement p c ln u v = Except.error msg) := by
  cases p <;> cases u <;> cases c <;> simp [mkVCSConfigElement]

/-- The outcome of the post-resolution re-check, by cases on the observed
    existence and the checkout answer. -/
theorem postResolution_cases (e : VCSConfigElement) (done : List FsAction) :
    ((postResolution e done true).result =
      Except.error ("Bug: directory " ++ e.path ++
        " should not exist anymore") ∧
     (postResolution e done true).trace = done) ∧
    ((postResolution e done false).trace =
      done ++ [FsAction.checkout e.uri e.version]) ∧
    (e.vcsc.checkout_ok = false →
      (postResolution e done false).result =
        Except.error (checkoutFailMsg e)) ∧
    (e.vcsc.checkout_ok = true →
      (postResolution e done false).result = Except.ok ()) := by
  rcases Bool.eq_false_or_eq_true e.vcsc.checkout_ok with h | h <;>
    simp [postResolution, h]

/-- Claim C6: backup moves the path to
    backup_root/basename(path)_timestamp (the timestamp in local
    YYYY-MM-DD-HH-MM-SS form), and with no backup root supplied (absent
    or empty) it raises, the install aborting with no action recorded. -/
theorem backup_naming_and_disabled (e : VCSConfigElement) (bp : String)
    (t : Datetime) (pm : String) (pbp : Option String) (rex : Bool)
    (m : String) (hbp : bp ≠ "") (hm : conflictMessage e = some m) :
    backupStep e.path (some bp) t =
      Except.ok (osPathJoin bp (osPathBasename e.path ++ "_" ++
        t.strftimeYmdHMS)) ∧
    backupStep e.path none t =
      Except.error ("Cannot install " ++ e.path ++ ".  backup disabled.") ∧
    backupStep e.path (some "") t =
      Except.error ("Cannot install " ++ e.path ++ ".  backup disabled.") ∧
    (∃ rest, (e.install true (some bp) "backup" false t pm pbp rex).trace =
      FsAction.backupMove e.path (osPathJoin bp (osPathBasename e.path ++
        "_" ++ t.strftimeYmdHMS)) :: rest) ∧
    ((e.install true none "backup" false t pm pbp rex).result =
      Except.error ("Cannot install " ++ e.path ++ ".  backup disabled.") ∧
     (e.install true none "backup" false t pm pbp rex).trace = []) ∧
    ((e.install true (some "") "backup" false t pm pbp rex).result =
      Except.error ("Cannot install " ++ e.path ++ ".  backup disabled.") ∧
     (e.install true (some "") "backup" false t pm pbp rex).trace = []) := by
  have hok : backupStep e.path (some bp) t =
      Except.ok (osPathJoin bp (osPathBasename e.path ++ "_" ++
        t.strftimeYmdHMS)) := by
    simp [backupStep, hbp]
  have hnone : backupStep e.path none t =
      Except.error ("Cannot install " ++ e.path ++ ".  backup disabled.") := rfl
  have hempty : backupStep e.path (some "") t =
      Except.error ("Cannot install " ++ e.path ++ ".  backup disabled.") := by
    simp [backupStep]
  refine ⟨hok, hnone, hempty, ?_, ?_, ?_⟩
  · rw [install_conflict_backup_ok e (some bp) t pm pbp rex m _ hm hok]
    cases rex
    · refine ⟨[FsAction.checkout e.uri e.version], ?_⟩
      rcases Bool.eq_false_or_eq_true e.vcsc.checkout_ok with h | h <;>
        simp [postResolution, h]
    · exact ⟨[], by simp [postResolution]⟩
  · rw [install_conflict_backup_err e none t pm pbp rex m _ hm hnone]
    exact ⟨rfl, rfl⟩
  · rw [install_conflict_backup_err e (some "") t pm pbp rex m _ hm hempty]
    exact ⟨rfl, rfl⟩

/-- Claim C6 witness at the mismatching sample element with backup root
    /ws/.backup. -/
theorem backup_naming_and_disabled_wit :
    backupStep mismatchElem.path (some "/ws/.backup") sampleTime =
      Except.ok (osPathJoin "/ws/.backup" (osPathBasename mismatchElem.path ++
        "_" ++ sampleTime.strftimeYmdHMS)) ∧
    backupStep mismatchElem.path none sampleTime =
      Except.error ("Cannot install " ++ mismatchElem.path ++
        ".  backup disabled.") ∧
    backupStep mismatchElem.path (some "") sampleTime =
      Except.error ("Cannot install " ++ mismatchElem.path ++
        ".  backup disabled.") ∧
    (∃ rest, (mismatchElem.install true (some "/ws/.backup") "backup" false
      sampleTime "" none false).trace =
      FsAction.backupMove mismatchElem.path (osPathJoin "/ws/.backup"
        (osPathBasename mismatchElem.path ++ "_" ++
          sampleTime.strftimeYmdHMS)) :: rest) ∧
    ((mismatchElem.install true none "backup" false sampleTime "" none
      false).result = Except.error ("Cannot install " ++ mismatchElem.path ++
        ".  backup disabled.") ∧
     (mismatchElem.install true none "backup" false sampleTime "" none
      false).trace = []) ∧
    ((mismatchElem.install true (some "") "backup" false sampleTime "" none
      false).result = Except.error ("Cannot install " ++ mismatchElem.path ++
        ".  backup disabled.") ∧
     (mismatchElem.install true (some "") "backup" false sampleTime "" none
      false).trace = []) :=
  backup_naming_and_disabled mismatchElem "/ws/.backup" sampleTime "" none
    false _ (by decide) rfl

/-- Claim C7: after the backup or delete branch of conflict resolution,
    install re-checks the path.  If path_exists still reports true it
    raises the bug error with no checkout call; if the removal cleared
    the path (the normal semantics of the move and of rmtree, so the bug
    branch is unreachable under that precondition) it proceeds to
    checkout(uri, version), raising the checkout-failed error exactly
    when the driver reports failure. -/
theorem install_post_removal_recheck (e : VCSConfigElement) (bp : String)
    (am : String) (t : Datetime) (pm : String) (pbp : Option String)
    (rex : Bool) (m : String) (hm : conflictMessage e = some m)
    (hmode : am = "backup" ∨ am = "delete") (hbp : bp ≠ "") :
    (rex = true →
      (e.install true (some bp) am false t pm pbp rex).result =
        Except.error ("Bug: directory " ++ e.path ++
          " should not exist anymore") ∧
      (∀ u v, FsAction.checkout u v ∉
        (e.install true (some bp) am false t pm pbp rex).trace)) ∧
    (rex = false →
      FsAction.checkout e.uri e.version ∈
        (e.install true (some bp) am false t pm pbp rex).trace ∧
      (e.vcsc.checkout_ok = false →
        (e.install true (some bp) am false t pm pbp rex).result =
          Except.error (checkoutFailMsg e)) ∧
      (e.vcsc.checkout_ok = true →
        (e.install true (some bp) am false t pm pbp rex).result =
          Except.ok ())) := by
  have key : ∃ done, (∀ u v, FsAction.checkout u v ∉ done) ∧
      e.install true (some bp) am false t pm pbp rex =
        postResolution e done rex := by
    rcases hmode with ham | ham <;> subst ham
    · refine ⟨[FsAction.backupMove e.path (osPathJoin bp
        (osPathBasename e.path ++ "_" ++ t.strftimeYmdHMS))],
        by intro u v; simp, ?_⟩
      exact install_conflict_backup_ok e (some bp) t pm pbp rex m _ hm
        (by simp [backupStep, hbp])
    · exact ⟨[FsAction.rmtree e.path], by intro u v; simp,
        install_conflict_delete e (some bp) t pm pbp rex m hm⟩
  obtain ⟨done, hnc, hinst⟩ := key
  rw [hinst]
  constructor
  · rintro rfl
    refine ⟨by simp [postResolution], ?_⟩
    intro u v
    simpa [postResolution] using hnc u v
  · rintro rfl
    rcases Bool.eq_false_or_eq_true e.vcsc.checkout_ok with h | h <;>
      simp [postResolution, h]

/-- Claim C7 witness: the mismatching sample element under scripted
    delete, with both re-check answers covered by the two implications. -/
theorem install_post_removal_recheck_wit :
    (false = true →
      (mismatchElem.install true (some "/ws/.backup") "delete" false
        sampleTime "" none false).result =
        Except.error ("Bug: directory " ++ mismatchElem.path ++
          " should not exist anymore") ∧
      (∀ u v, FsAction.checkout u v ∉
        (mismatchElem.install true (some "/ws/.backup") "delete" false
          sampleTime "" none false).trace)) ∧
    (false = false →
      FsAction.checkout mismatchElem.uri mismatchElem.version ∈
        (mismatchElem.install true (some "/ws/.backup") "delete" false
          sampleTime "" none false).trace ∧
      (mismatchElem.vcsc.checkout_ok = false →
        (mismatchElem.install true (some "/ws/.backup") "delete" false
          sampleTime "" none false).result =
          Except.error (checkoutFailMsg mismatchElem)) ∧
      (mismatchElem.vcsc.checkout_ok = true →
        (mismatchElem.install true (some "/ws/.backup") "delete" false
          sampleTime "" none false).result = Except.ok ())) :=
  install_post_removal_recheck mismatchElem "/ws/.backup" "delete"
    sampleTime "" none false _ rfl (Or.inr rfl) (by decide)

/-- Claim C8: the versioned descriptor of a Checkout entry reports the
    local name, the stored uri, the resolved actual current revision
    under version (get_version with no argument), and under revision the
    empty string when no nonblank pin was specified and otherwise the
    resolution of the pin (get_version(version)). -/
theorem get_versioned_yaml_fields (e : VCSConfigElement) :
    (e.get_versioned_yaml).vcs_type_name = e.vcsc.get_vcs_type_name ∧
    (e.get_versioned_yaml).local_name = e.local_name ∧
    (e.get_versioned_yaml).uri = e.uri ∧
    (e.get_versioned_yaml).version = e.vcsc.get_version none ∧
    (e.version.trim = "" → (e.get_versioned_yaml).revision = "") ∧
    (e.version.trim ≠ "" →
      (e.get_versioned_yaml).revision =
        e.vcsc.get_version (some e.version)) := by
  refine ⟨rfl, rfl, rfl, rfl, fun h => ?_, fun h => ?_⟩ <;>
    simp [VCSConfigElement.get_versioned_yaml, h]

/-- Claim C9: scripted skip on a conflicting existing path returns
    normally with no action recorded and the path state untouched. -/
theorem install_skip_frame (e : VCSConfigElement) (bp : Option String)
    (t : Datetime) (pm : String) (pbp : Option String) (rex : Bool)
    (m : String) (hm : conflictMessage e = some m) :
    (e.install true bp "skip" false t pm pbp rex).result = Except.ok () ∧
    (e.install true bp "skip" false t pm pbp rex).trace = [] ∧
    (e.install true bp "skip" false t pm pbp rex).pathExistsAfter = true := by
  rw [install_conflict_skip e bp t pm pbp rex m hm]
  exact ⟨rfl, rfl, rfl⟩

/-- Claim C9 witness at the mismatching sample element. -/
theorem install_skip_frame_wit :
    (mismatchElem.install true none "skip" false sampleTime "" none
      false).result = Except.ok () ∧
    (mismatchElem.install true none "skip" false sampleTime "" none
      false).trace = [] ∧
    (mismatchElem.install true none "skip" false sampleTime "" none
      false).pathExistsAfter = true :=
  install_skip_frame mismatchElem none sampleTime "" none false _ rfl

/-- Claim C10: a conflicting existing path with robust false and a
    scripted mode that is none of abort, backup, delete, skip or prompt
    falls through the dispatch with no action and raises the
    internal-consistency bug error, the path still existing. -/
theorem install_unknown_mode_bug (e : VCSConfigElement) (bp : Option String)
    (am : String) (t : Datetime) (pm : String) (pbp : Option String)
    (rex : Bool) (m : String) (hm : conflictMessage e = some m)
    (h1 : am ≠ "abort") (h2 : am ≠ "backup") (h3 : am ≠ "delete")
    (h4 : am ≠ "skip") (h5 : am ≠ "prompt") :
    (e.install true bp am false t pm pbp rex).trace = [] ∧
    (e.install true bp am false t pm pbp rex).result =
      Except.error ("Bug: directory " ++ e.path ++
        " should not exist anymore") ∧
    (e.install true bp am false t pm pbp rex).pathExistsAfter = true := by
  rw [install_conflict_unknown e bp am t pm pbp rex m hm h1 h2 h3 h4 h5]
  exact ⟨by simp [postResolution], by simp [postResolution],
    by simp [postResolution]⟩

/-- Claim C10 witness: the mismatching sample element under the scripted
    mode merge. -/
theorem install_unknown_mode_bug_wit :
    (mismatchElem.install true none "merge" false sampleTime "" none
      false).trace = [] ∧
    (mismatchElem.install true none "merge" false sampleTime "" none
      false).result = Except.error ("Bug: directory " ++ mismatchElem.path ++
        " should not exist anymore") ∧
    (mismatchElem.install true none "merge" false sampleTime "" none
      false).pathExistsAfter = true :=
  install_unknown_mode_bug mismatchElem none "merge" sampleTime "" none
    false _ rfl (by decide) (by decide) (by decide) (by decide) (by decide)
